import Mathlib

/-!
Verification of the multi-user reminder scheduling engine of a Telegram
notes-reminder bot.  The definitions below are a shallow embedding of
`src/config.py`, `src/scheduler.py` and `src/multi_user_scheduler.py`:
pure computations become Lean functions, the mutable scheduler state
becomes explicit state passing, wall-clock instants become a record of
calendar fields over a linear day count, and the cooperative
sleep/cancellation loop becomes a structurally recursive poll over
integer seconds.
-/

/-- A naive wall-clock instant, as Python `datetime.datetime` is used by the
scheduler.  `day` is a linear day count (the month structure is irrelevant to
the scheduler's arithmetic: `timedelta(days=1)` adds one calendar day keeping
the clock time). -/
structure DateTime where
  day : Nat
  hour : Nat
  minute : Nat
  second : Nat
  microsecond : Nat
deriving DecidableEq, Repr

/-- Total microseconds since day 0; naive `datetime` instants with in-range
fields compare exactly like this number. -/
def DateTime.toMicros (d : DateTime) : Nat :=
  (((d.day * 24 + d.hour) * 60 + d.minute) * 60 + d.second) * 1000000 + d.microsecond

/-- Microseconds in one calendar day. -/
def microsPerDay : Nat := 86400000000

/-- Reminder Day Policy, from `_run_scheduler` (both scheduler variants):
`today.day % self.config.reminder_interval_days == 0`. -/
def isReminderDay (dayOfMonth intervalDays : Nat) : Bool :=
  dayOfMonth % intervalDays == 0

/-- Configuration record, from `Config.__init__` in `src/config.py`.  The
hour/interval settings are parsed with Python `int(...)` and may be negative,
hence `Int`. -/
structure Config where
  bot_token : String
  database_url : String
  reminder_start_hour : Int
  reminder_end_hour : Int
  reminder_interval_days : Int
deriving Repr

/-- `Config.validate` from `src/config.py`: the chain of early-return checks,
in source order. -/
def Config.validate (c : Config) : Bool :=
  if c.bot_token = "" ∨ c.bot_token = "PASTE_YOUR_TOKEN_HERE" then false
  else if c.database_url = "" then false
  else if c.reminder_start_hour < 0 ∨ c.reminder_start_hour > 23 then false
  else if c.reminder_end_hour < 0 ∨ c.reminder_end_hour > 23 then false
  else if c.reminder_start_hour ≥ c.reminder_end_hour then false
  else true

/-- Fire-time computation shared by `_schedule_user_reminder`
(multi_user_scheduler.py) and `_handle_reminder_day` (scheduler.py):
`send_time = now.replace(hour=random_hour, minute=random_minute, second=0,
microsecond=0)`, then `if now >= send_time: send_time += timedelta(days=1)`. -/
def computeSendTime (now : DateTime) (randomHour randomMinute : Nat) : DateTime :=
  let sendTime : DateTime :=
    { now with hour := randomHour, minute := randomMinute, second := 0, microsecond := 0 }
  if sendTime.toMicros ≤ now.toMicros then { sendTime with day := sendTime.day + 1 }
  else sendTime

/-- The scheduler's `self._running` flag over discretized time (whole
seconds), as observed by the polling loop.  Cancellation is a one-way
transition: once `stop()` clears the flag it is never set again while the
sleep is in progress. -/
def OnceStoppedStaysStopped (running : Nat → Bool) : Prop :=
  ∀ s t : Nat, s ≤ t → running s = false → running t = false

/-- The body of the `while time.time() < end_time and self._running:` loop of
`_sleep_with_check`, at whole-second granularity.  `r` is the remaining whole
seconds `endTime - t`, which strictly decreases: each pass sleeps
`min(1.0, end_time - time.time())` seconds.  Returns the instant at which the
loop exits. -/
def sleepLoopGo (running : Nat → Bool) (endTime : Nat) : Nat → Nat → Nat
  | 0, t => t
  | r + 1, t =>
    if running t then sleepLoopGo running endTime r (t + min 1 (endTime - t))
    else t

/-- Exit instant of the polling loop of `_sleep_with_check` started at `t`
with deadline `endTime`. -/
def sleepLoop (running : Nat → Bool) (endTime t : Nat) : Nat :=
  sleepLoopGo running endTime (endTime - t) t

/-- `_sleep_with_check(seconds)` (identical in both scheduler variants):
polls `self._running` once per tick of at most one second until
`end_time = start + duration`, then returns `self._running`.  The result is
the pair (instant at which the call returns, returned boolean). -/
def sleepWithCheck (running : Nat → Bool) (startTime duration : Nat) : Nat × Bool :=
  let tf := sleepLoop running (startTime + duration) startTime
  (tf, running tf)

/-- A stored note as seen by the scheduler, from the dicts produced by
`DatabaseStorage.get_notes_with_metadata`: `selected_note.get('content', '')`,
`selected_note.get('note_type', 'text')` and
`selected_note.get('metadata', {}).get('file_path', '')` — a missing file
path is the empty string, exactly as in the source's `.get(..., '')`. -/
structure Note where
  content : String
  note_type : String
  file_path : String
deriving DecidableEq, Repr

/-- The delivery collaborators of `_send_reminder`: `os.path.exists` and
whether each typed `bot.send_*` call succeeds or raises. -/
structure DeliveryEnv where
  fileExists : String → Bool
  sendPhotoOk : Bool
  sendVoiceOk : Bool
  sendDocumentOk : Bool
  sendVideoOk : Bool
  sendAudioOk : Bool

/-- One outbound call performed by `_send_reminder`; the `ok` flag of a typed
media call records whether the call succeeded (`send_message` failures are
swallowed by the enclosing catch-all and perform no further calls, so the
sequence of calls does not depend on them). -/
inductive SendEvent where
  | message (chatId text : String)
  | photo (chatId path caption : String) (ok : Bool)
  | voice (chatId path caption : String) (ok : Bool)
  | document (chatId path caption : String) (ok : Bool)
  | video (chatId path caption : String) (ok : Bool)
  | audio (chatId path caption : String) (ok : Bool)
deriving DecidableEq, Repr

def SendEvent.isMessage : SendEvent → Bool
  | .message _ _ => true
  | _ => false

def SendEvent.isOkPhoto : SendEvent → Bool
  | .photo _ _ _ ok => ok
  | _ => false

/-- The reminder header prepended to the note content:
`f"📚 Reminder:\n{content}"`. -/
def reminderMessage (content : String) : String :=
  "📚 Reminder:\n" ++ content

/-- Delivery of one already-selected note, from the body of `_send_reminder`
in `src/multi_user_scheduler.py`: one branch per `note_type`, each non-text
branch checking `if file_path and os.path.exists(file_path)` and falling back
to `send_message` when the path is missing/absent or the typed send raises;
unknown kinds go straight to `send_message`.  The function returns the list
of outbound calls in order. -/
def sendReminderNote (env : DeliveryEnv) (chatId : String) (note : Note) :
    List SendEvent :=
  let message := reminderMessage note.content
  if note.note_type = "text" then
    [.message chatId message]
  else if note.note_type = "image" then
    if note.file_path ≠ "" ∧ env.fileExists note.file_path = true then
      if env.sendPhotoOk then [.photo chatId note.file_path message true]
      else [.photo chatId note.file_path message false, .message chatId message]
    else [.message chatId message]
  else if note.note_type = "voice" then
    if note.file_path ≠ "" ∧ env.fileExists note.file_path = true then
      if env.sendVoiceOk then [.voice chatId note.file_path message true]
      else [.voice chatId note.file_path message false, .message chatId message]
    else [.message chatId message]
  else if note.note_type = "document" then
    if note.file_path ≠ "" ∧ env.fileExists note.file_path = true then
      if env.sendDocumentOk then [.document chatId note.file_path message true]
      else [.document chatId note.file_path message false, .message chatId message]
    else [.message chatId message]
  else if note.note_type = "video" then
    if note.file_path ≠ "" ∧ env.fileExists note.file_path = true then
      if env.sendVideoOk then [.video chatId note.file_path message true]
      else [.video chatId note.file_path message false, .message chatId message]
    else [.message chatId message]
  else if note.note_type = "audio" then
    if note.file_path ≠ "" ∧ env.fileExists note.file_path = true then
      if env.sendAudioOk then [.audio chatId note.file_path message true]
      else [.audio chatId note.file_path message false, .message chatId message]
    else [.message chatId message]
  else
    [.message chatId message]

/-- `_send_reminder(user_id, notes)`: `random.choice(notes)` — modelled by an
arbitrary draw index reduced modulo the length — followed by delivery of the
selected note.  The whole body sits inside `try/except Exception`, so the
call always returns normally; `random.choice` of an empty list raises and is
caught having performed no outbound call. -/
def sendReminder (env : DeliveryEnv) (chatId : String) (notes : List Note)
    (draw : Nat) : List SendEvent :=
  match notes.get? (draw % notes.length) with
  | some note => sendReminderNote env chatId note
  | none => []

/-- `send_test_reminder(user_id)`: returns `False` when the user has no
notes, otherwise calls `_send_reminder` (which cannot raise, its body being
wrapped in a catch-all) and returns `True`.  Result: (returned boolean, the
outbound calls performed). -/
def sendTestReminder (env : DeliveryEnv) (chatId : String) (notes : List Note)
    (draw : Nat) : Bool × List SendEvent :=
  if notes.isEmpty then (false, [])
  else (true, sendReminder env chatId notes draw)

/-- `_handle_user_reminder(user_id, send_time, notes)` over discretized
time: `wait_seconds = (send_time - now).total_seconds()`; when positive,
sleep-with-check and return without delivering if it reports interruption;
otherwise deliver via `_send_reminder`.  Returns the outbound calls made. -/
def handleUserReminder (running : Nat → Bool) (now sendTime : Nat)
    (env : DeliveryEnv) (chatId : String) (notes : List Note) (draw : Nat) :
    List SendEvent :=
  let waitSeconds := sendTime - now
  if 0 < waitSeconds then
    if (sleepWithCheck running now waitSeconds).2 then
      sendReminder env chatId notes draw
    else []
  else sendReminder env chatId notes draw

/-- Insertion into the shared schedule table
`self._user_reminder_times[user_id] = send_time`: a Python dict assignment
overwrites an existing key in place and appends a new key at the end. -/
def assocInsert (uid : String) (t : DateTime)
    (table : List (String × DateTime)) : List (String × DateTime) :=
  if table.any (fun p => p.1 == uid) then
    table.map (fun p => if p.1 == uid then (uid, t) else p)
  else table ++ [(uid, t)]

/-- `_schedule_user_reminder(user_id)` given the notes fetched for the user
and the two random draws: with no notes it returns at once (no table write,
no dispatcher thread); otherwise it records the computed fire time in the
table and spawns a dispatcher for it (the returned `Option`). -/
def scheduleUserReminder (table : List (String × DateTime)) (uid : String)
    (notes : List Note) (randomHour randomMinute : Nat) (now : DateTime) :
    List (String × DateTime) × Option DateTime :=
  if notes.isEmpty then (table, none)
  else
    let sendTime := computeSendTime now randomHour randomMinute
    (assocInsert uid sendTime table, some sendTime)

/-- The mutable state of `MultiUserScheduler` relevant to scheduling:
`self._user_reminder_times` (the shared schedule table) and the
`self._running` flag. -/
structure SchedState where
  userReminderTimes : List (String × DateTime)
  running : Bool
deriving DecidableEq, Repr

/-- State after `start()`: the table created empty in `__init__`, the flag
set. -/
def initState : SchedState :=
  { userReminderTimes := [], running := true }

/-- The state-changing scheduler occurrences: `record uid t` is the table
write in `_schedule_user_reminder`; `fireComplete uid` is
`_handle_user_reminder` reaching its fire time and sending; `stop` is
`stop()`. -/
inductive SchedEvent where
  | record (uid : String) (t : DateTime)
  | fireComplete (uid : String)
  | stop
deriving DecidableEq, Repr

/-- Effect of each occurrence on the scheduler state, read off the source:
`_schedule_user_reminder` writes `self._user_reminder_times[user_id] =
send_time`; `_handle_user_reminder` sends and never touches the table;
`stop()` clears `self._running`, joins the control thread, and never touches
the table. -/
def applyEvent (s : SchedState) : SchedEvent → SchedState
  | .record uid t =>
    { s with userReminderTimes := assocInsert uid t s.userReminderTimes }
  | .fireComplete _ => s
  | .stop => { s with running := false }

def applyEvents (s : SchedState) (events : List SchedEvent) : SchedState :=
  events.foldl applyEvent s

/-- The introspection snapshot of `get_scheduler_stats`; the storage counts
are opaque inputs, `scheduled_reminders` is
`len(self._user_reminder_times)` and `running` is `self._running`. -/
structure SchedulerStats where
  total_users : Nat
  total_notes : Nat
  active_users : Nat
  scheduled_reminders : Nat
  running : Bool
deriving DecidableEq, Repr

def getSchedulerStats (totalUsers totalNotes activeUsers : Nat)
    (s : SchedState) : SchedulerStats :=
  { total_users := totalUsers, total_notes := totalNotes,
    active_users := activeUsers,
    scheduled_reminders := s.userReminderTimes.length,
    running := s.running }

/-- Modelled from the spec claim, for comparison with the implementation:
the users "whose most recently recorded reminder has not yet fired or been
cancelled" — recording adds the user, firing removes them, stopping the
scheduler cancels (removes) everyone. -/
def claimLiveStep (live : List String) : SchedEvent → List String
  | .record uid _ => if live.contains uid then live else live ++ [uid]
  | .fireComplete uid => live.filter (fun u => u ≠ uid)
  | .stop => []

def specScheduledCount (events : List SchedEvent) : Nat :=
  (events.foldl claimLiveStep []).length

/-- Seconds until the next local midnight in microseconds, from
`_handle_reminder_day`: `next_check = datetime.now().replace(hour=0,
minute=0, second=0, microsecond=0) + timedelta(days=1)` and the sleep is
`(next_check - datetime.now()).total_seconds()`. -/
def microsUntilNextMidnight (now : DateTime) : Nat :=
  (now.day + 1) * microsPerDay - now.toMicros

/-- Outcome of one normal iteration of `_run_scheduler`
(multi_user_scheduler.py): the schedule table after it, the dispatchers
spawned (user and fire time), and how long the loop then sleeps, in
microseconds. -/
structure IterResult where
  table : List (String × DateTime)
  spawned : List (String × DateTime)
  sleepMicros : Nat
deriving Repr

/-- `_handle_reminder_day` of `MultiUserScheduler`: with no users it sleeps
one hour and returns; otherwise it runs `_schedule_user_reminder` for every
user in order (each with its own random draws, users without notes silently
skipped) and then sleeps until the next local midnight. -/
def handleReminderDay (table : List (String × DateTime))
    (userIds : List String) (notesOf : String → List Note)
    (randomDraw : String → Nat × Nat) (now : DateTime) : IterResult :=
  if userIds.isEmpty then
    { table := table, spawned := [], sleepMicros := 3600 * 1000000 }
  else
    let final := userIds.foldl
      (fun acc uid =>
        let r := scheduleUserReminder acc.1 uid (notesOf uid)
          (randomDraw uid).1 (randomDraw uid).2 now
        (r.1, match r.2 with
          | none => acc.2
          | some ft => acc.2 ++ [(uid, ft)]))
      (table, [])
    { table := final.1, spawned := final.2,
      sleepMicros := microsUntilNextMidnight now }

/-- One normal iteration of the `while self._running:` loop of
`_run_scheduler`: on a reminder day (`today.day % interval == 0`) it runs
`_handle_reminder_day`, otherwise it sleeps one hour. -/
def runSchedulerIteration (intervalDays dayOfMonth : Nat)
    (table : List (String × DateTime)) (userIds : List String)
    (notesOf : String → List Note) (randomDraw : String → Nat × Nat)
    (now : DateTime) : IterResult :=
  if isReminderDay dayOfMonth intervalDays then
    handleReminderDay table userIds notesOf randomDraw now
  else
    { table := table, spawned := [], sleepMicros := 3600 * 1000000 }

theorem sleepLoopGo_exit (running : Nat → Bool) (endTime : Nat) :
    ∀ r t, r = endTime - t →
      ¬(sleepLoopGo running endTime r t < endTime ∧
        running (sleepLoopGo running endTime r t) = true) := by
  intro r
  induction r with
  | zero =>
    intro t h
    simp only [sleepLoopGo]
    intro hc
    omega
  | succ n ih =>
    intro t h
    simp only [sleepLoopGo]
    by_cases hr : running t = true
    · rw [if_pos hr]
      exact ih (t + min 1 (endTime - t)) (by omega)
    · rw [if_neg hr]
      intro hc
      exact hr hc.2

theorem sleepLoopGo_all_true (running : Nat → Bool) (endTime lo : Nat)
    (hall : ∀ x, lo ≤ x → x ≤ endTime → running x = true) :
    ∀ r t, r = endTime - t → lo ≤ t → t ≤ endTime →
      sleepLoopGo running endTime r t = endTime := by
  intro r
  induction r with
  | zero =>
    intro t h hlo ht
    simp only [sleepLoopGo]
    omega
  | succ n ih =>
    intro t h hlo ht
    simp only [sleepLoopGo]
    rw [if_pos (hall t hlo ht)]
    exact ih (t + min 1 (endTime - t)) (by omega) (by omega) (by omega)

theorem sleepLoopGo_le_max (running : Nat → Bool) (endTime : Nat)
    (hmono : OnceStoppedStaysStopped running) (tc : Nat) (hc : running tc = false) :
    ∀ r t, sleepLoopGo running endTime r t ≤ max t tc := by
  intro r
  induction r with
  | zero =>
    intro t
    simp only [sleepLoopGo]
    omega
  | succ n ih =>
    intro t
    simp only [sleepLoopGo]
    by_cases hr : running t = true
    · rw [if_pos hr]
      have htc : t < tc := by
        by_contra hge
        have := hmono tc t (by omega) hc
        rw [this] at hr
        exact Bool.false_ne_true hr
      have := ih (t + min 1 (endTime - t))
      omega
    · rw [if_neg hr]
      omega

/-- Claim C1: for every `interval_days = N ≥ 1` and every calendar date, the
reminder-day decision returns true iff the day of month modulo `N` equals 0.
This is literally the implemented rule `date.day % N == 0`. -/
theorem claim_C1_reminder_day_iff_mod (N d : Nat) (hN : 1 ≤ N) :
    isReminderDay d N = true ↔ d % N = 0 := by
  simp [isReminderDay]

/-- Witness for C1 at `N = 2`, `d = 10` (the spec's own example: day 10 is a
reminder day under a 2-day interval). -/
theorem claim_C1_witness : isReminderDay 10 2 = true ↔ 10 % 2 = 0 :=
  claim_C1_reminder_day_iff_mod 2 10 (by decide)

/-- Claim C9: validation fails whenever `window_start_hour ≥ window_end_hour`
or either hour lies outside `0..23`; and with the other required settings
present (a real bot token and a nonempty database URL), every configuration
meeting those bounds validates. -/
theorem claim_C9_validate_window (c : Config) :
    ((c.reminder_start_hour ≥ c.reminder_end_hour ∨
      c.reminder_start_hour < 0 ∨ c.reminder_start_hour > 23 ∨
      c.reminder_end_hour < 0 ∨ c.reminder_end_hour > 23) →
       c.validate = false) ∧
    (c.bot_token ≠ "" → c.bot_token ≠ "PASTE_YOUR_TOKEN_HERE" → c.database_url ≠ "" →
      0 ≤ c.reminder_start_hour → c.reminder_start_hour ≤ 23 →
      0 ≤ c.reminder_end_hour → c.reminder_end_hour ≤ 23 →
      c.reminder_start_hour < c.reminder_end_hour →
      c.validate = true) := by
  constructor
  · intro h
    unfold Config.validate
    split
    · rfl
    · split
      · rfl
      · split
        · rfl
        · split
          · rfl
          · split
            · rfl
            · omega
  · intro h1 h2 h3 h4 h5 h6 h7 h8
    unfold Config.validate
    rw [if_neg (fun h => h.elim h1 h2), if_neg h3, if_neg (by omega),
      if_neg (by omega), if_neg (by omega)]

/-- Witness for C9: a fully in-bounds configuration validates, and one with
an inverted window is rejected. -/
theorem claim_C9_witness :
    Config.validate ⟨"tok", "db", 8, 20, 2⟩ = true ∧
    Config.validate ⟨"tok", "db", 20, 8, 2⟩ = false :=
  ⟨(claim_C9_validate_window ⟨"tok", "db", 8, 20, 2⟩).2
      (by decide) (by decide) (by decide) (by decide) (by decide)
      (by decide) (by decide) (by decide),
   (claim_C9_validate_window ⟨"tok", "db", 20, 8, 2⟩).1 (Or.inl (by decide))⟩

/-- Claim C2: for a scheduling instant `now` with in-range clock fields and a
window with `startHour < endHour` (hours in `0..23`), given the random draws
`randomHour ∈ [startHour, endHour]` and `randomMinute ∈ [0, 59]`, the computed
fire time has its hour in the window and minute in `0..59`, lies strictly
after `now`, and whenever the chosen same-day clock time is not strictly
after `now` it equals that clock time on the next calendar day. -/
theorem claim_C2_send_time (now : DateTime) (startHour endHour rh rm : Nat)
    (hwin : startHour < endHour) (hend : endHour ≤ 23)
    (h1 : startHour ≤ rh) (h2 : rh ≤ endHour) (h3 : rm ≤ 59)
    (hh : now.hour ≤ 23) (hm : now.minute ≤ 59) (hs : now.second ≤ 59)
    (hu : now.microsecond ≤ 999999) :
    (startHour ≤ (computeSendTime now rh rm).hour ∧
      (computeSendTime now rh rm).hour ≤ endHour) ∧
    (computeSendTime now rh rm).minute ≤ 59 ∧
    now.toMicros < (computeSendTime now rh rm).toMicros ∧
    (({ now with hour := rh, minute := rm, second := 0, microsecond := 0 } :
        DateTime).toMicros ≤ now.toMicros →
      computeSendTime now rh rm =
        { now with day := now.day + 1, hour := rh, minute := rm,
                   second := 0, microsecond := 0 }) := by
  unfold computeSendTime
  simp only []
  split
  · rename_i hle
    refine ⟨⟨h1, h2⟩, h3, ?_, fun _ => rfl⟩
    simp only [DateTime.toMicros] at hle ⊢
    omega
  · rename_i hgt
    refine ⟨⟨h1, h2⟩, h3, ?_, fun hc => absurd hc hgt⟩
    simp only [DateTime.toMicros] at hgt ⊢
    omega

/-- Witness for C2: scheduling at 21:00 with window `[8, 20]` and the draw
`(10, 30)` rolls to 10:30 the next day, which is strictly after `now`. -/
theorem claim_C2_witness :
    (8 ≤ (computeSendTime ⟨0, 21, 0, 0, 0⟩ 10 30).hour ∧
      (computeSendTime ⟨0, 21, 0, 0, 0⟩ 10 30).hour ≤ 20) ∧
    (computeSendTime ⟨0, 21, 0, 0, 0⟩ 10 30).minute ≤ 59 ∧
    DateTime.toMicros ⟨0, 21, 0, 0, 0⟩ <
      (computeSendTime ⟨0, 21, 0, 0, 0⟩ 10 30).toMicros ∧
    (DateTime.toMicros ⟨0, 10, 30, 0, 0⟩ ≤ DateTime.toMicros ⟨0, 21, 0, 0, 0⟩ →
      computeSendTime ⟨0, 21, 0, 0, 0⟩ 10 30 = ⟨1, 10, 30, 0, 0⟩) :=
  claim_C2_send_time ⟨0, 21, 0, 0, 0⟩ 8 20 10 30 (by decide) (by decide)
    (by decide) (by decide) (by decide) (by decide) (by decide) (by decide)
    (by decide)

/-- Claim C4: the sleep-with-cancellation primitive, polling in ticks of at
most one second, returns `true` exactly when the whole duration elapsed with
the running flag never observed cleared, and returns `false` as soon as
cancellation is observed: if the flag is cleared at some instant `tc` not
later than the deadline, the call returns `false`, at an instant no later
than the first poll at or after `tc` (hence within one tick of `tc`). -/
theorem claim_C4_sleep_with_check (running : Nat → Bool) (startTime duration : Nat)
    (hmono : OnceStoppedStaysStopped running) :
    ((∀ x, startTime ≤ x → x ≤ startTime + duration → running x = true) →
      sleepWithCheck running startTime duration = (startTime + duration, true)) ∧
    (∀ tc, running tc = false → tc ≤ startTime + duration →
      (sleepWithCheck running startTime duration).2 = false ∧
      (sleepWithCheck running startTime duration).1 ≤ max startTime tc) := by
  constructor
  · intro hall
    have key : sleepLoop running (startTime + duration) startTime = startTime + duration :=
      sleepLoopGo_all_true running (startTime + duration) startTime hall
        (startTime + duration - startTime) startTime rfl (by omega) (by omega)
    simp only [sleepWithCheck, key]
    rw [hall (startTime + duration) (by omega) (by omega)]
  · intro tc hc hle
    have hexit := sleepLoopGo_exit running (startTime + duration)
      (startTime + duration - startTime) startTime rfl
    have hmax := sleepLoopGo_le_max running (startTime + duration) hmono tc hc
      (startTime + duration - startTime) startTime
    set tf := sleepLoopGo running (startTime + duration)
      (startTime + duration - startTime) startTime with htf
    refine ⟨?_, ?_⟩
    · show running tf = false
      by_cases hrf : running tf = true
      · exfalso
        apply hexit
        refine ⟨?_, hrf⟩
        by_contra hge
        have : running tf = false := hmono tc tf (by omega) hc
        rw [this] at hrf
        exact Bool.false_ne_true hrf
      · exact Bool.not_eq_true _ |>.mp hrf
    · exact hmax

/-- Witness for C4: with a flag that clears at instant 3, a 10-second sleep
started at 0 returns `false` no later than instant 3. -/
theorem claim_C4_witness :
    (sleepWithCheck (fun t => decide (t < 3)) 0 10).2 = false ∧
    (sleepWithCheck (fun t => decide (t < 3)) 0 10).1 ≤ max 0 3 :=
  (claim_C4_sleep_with_check (fun t => decide (t < 3)) 0 10
      (fun s t hst hs => by
        simp only [decide_eq_false_iff_not, Nat.not_lt] at hs ⊢
        omega)).2
    3 (by decide) (by decide)

/-- Claim C6: if cancellation is signaled at an instant `tc` no later than the
fire time while the dispatcher is still waiting (its fire time strictly in the
future), the dispatcher returns without performing any delivery call. -/
theorem claim_C6_cancelled_dispatcher_no_delivery (running : Nat → Bool)
    (now sendTime : Nat) (env : DeliveryEnv) (chatId : String)
    (notes : List Note) (draw : Nat)
    (hmono : OnceStoppedStaysStopped running) (tc : Nat)
    (hc : running tc = false) (htc : tc ≤ sendTime) (hfut : now < sendTime) :
    handleUserReminder running now sendTime env chatId notes draw = [] := by
  unfold handleUserReminder
  have hwait : 0 < sendTime - now := by omega
  rw [if_pos hwait]
  have hend : now + (sendTime - now) = sendTime := by omega
  have hexit := sleepLoopGo_exit running (now + (sendTime - now))
    (now + (sendTime - now) - now) now rfl
  set tf := sleepLoopGo running (now + (sendTime - now))
    (now + (sendTime - now) - now) now with htf
  have hfalse : running tf = false := by
    by_cases hrf : running tf = true
    · exfalso
      apply hexit
      refine ⟨?_, hrf⟩
      by_contra hge
      have : running tf = false := hmono tc tf (by omega) hc
      rw [this] at hrf
      exact Bool.false_ne_true hrf
    · exact Bool.not_eq_true _ |>.mp hrf
  have : (sleepWithCheck running now (sendTime - now)).2 = false := by
    simp only [sleepWithCheck]
    exact hfalse
  rw [this]
  simp

/-- Witness for C6: the flag clears at instant 2 while the dispatcher waits
for a fire time of 5; no call is made. -/
theorem claim_C6_witness :
    handleUserReminder (fun t => decide (t < 2)) 0 5
      ⟨fun _ => false, true, true, true, true, true⟩ "42"
      [⟨"hello", "text", ""⟩] 0 = [] :=
  claim_C6_cancelled_dispatcher_no_delivery (fun t => decide (t < 2)) 0 5
    ⟨fun _ => false, true, true, true, true, true⟩ "42"
    [⟨"hello", "text", ""⟩] 0
    (fun s t hst hs => by
      simp only [decide_eq_false_iff_not, Nat.not_lt] at hs ⊢
      omega)
    2 (by decide) (by decide) (by decide)

/-- Claim C10: `send_test_reminder` returns `True` for every user with at
least one stored note — for every delivery environment, including ones where
every file is missing and every typed send fails, because `_send_reminder`
catches every delivery exception internally — and returns `False` exactly
when the user has no notes. -/
theorem claim_C10_send_test_reminder (env : DeliveryEnv) (chatId : String)
    (notes : List Note) (draw : Nat) :
    (sendTestReminder env chatId notes draw).1 = !notes.isEmpty := by
  unfold sendTestReminder
  by_cases h : notes.isEmpty
  · rw [if_pos h, h]
    rfl
  · rw [if_neg h, Bool.not_eq_true _ |>.mp h]
    rfl

/-- Claim C8: when the selected note has kind `image` and its media reference
is unresolvable — no file path recorded, the file absent, or the typed send
failing — delivery performs exactly one `send_message` call carrying the
reminder header plus the note content, and no successful `send_photo` call. -/
theorem claim_C8_image_fallback (env : DeliveryEnv) (chatId : String)
    (note : Note) (hkind : note.note_type = "image")
    (hunres : note.file_path = "" ∨ env.fileExists note.file_path = false ∨
      env.sendPhotoOk = false) :
    (sendReminderNote env chatId note).filter SendEvent.isMessage =
      [.message chatId (reminderMessage note.content)] ∧
    ∀ e ∈ sendReminderNote env chatId note, e.isOkPhoto = false := by
  unfold sendReminderNote
  rw [hkind]
  rw [if_neg (by decide), if_pos rfl]
  by_cases hres : note.file_path ≠ "" ∧ env.fileExists note.file_path = true
  · rw [if_pos hres]
    have hfail : env.sendPhotoOk = false := by
      rcases hunres with h | h | h
      · exact absurd h hres.1
      · rw [hres.2] at h
        exact absurd h (by decide)
      · exact h
    rw [if_neg (by rw [hfail]; exact Bool.false_ne_true)]
    refine ⟨rfl, ?_⟩
    intro e he
    simp only [List.mem_cons, List.mem_singleton, List.not_mem_nil] at he
    rcases he with h | h | h
    · rw [h]
      rfl
    · rw [h]
      rfl
    · exact absurd h (by simp)
  · rw [if_neg hres]
    refine ⟨rfl, ?_⟩
    intro e he
    simp only [List.mem_singleton] at he
    rw [he]
    rfl

/-- Witness for C8: an image note with no recorded file path and a failing
photo channel falls back to a single text send. -/
theorem claim_C8_witness :
    (sendReminderNote ⟨fun _ => false, false, true, true, true, true⟩ "42"
        ⟨"pic", "image", ""⟩).filter SendEvent.isMessage =
      [.message "42" (reminderMessage "pic")] ∧
    ∀ e ∈ sendReminderNote ⟨fun _ => false, false, true, true, true, true⟩ "42"
        ⟨"pic", "image", ""⟩, e.isOkPhoto = false :=
  claim_C8_image_fallback ⟨fun _ => false, false, true, true, true, true⟩ "42"
    ⟨"pic", "image", ""⟩ rfl (Or.inl rfl)

/-- Claim C7: for a user whose note list at scheduling time is empty, the
per-user scheduling step leaves the schedule table untouched and spawns no
dispatcher, so no delivery can occur for that user. -/
theorem claim_C7_no_notes_no_schedule (table : List (String × DateTime))
    (uid : String) (notes : List Note) (randomHour randomMinute : Nat)
    (now : DateTime) (hempty : notes = []) :
    scheduleUserReminder table uid notes randomHour randomMinute now =
      (table, none) := by
  subst hempty
  rfl

/-- Witness for C7 at a concrete user and table. -/
theorem claim_C7_witness :
    scheduleUserReminder [("7", ⟨0, 9, 0, 0, 0⟩)] "42" [] 10 30
      ⟨0, 8, 0, 0, 0⟩ = ([("7", ⟨0, 9, 0, 0, 0⟩)], none) :=
  claim_C7_no_notes_no_schedule [("7", ⟨0, 9, 0, 0, 0⟩)] "42" [] 10 30
    ⟨0, 8, 0, 0, 0⟩ rfl

/-- Counterexample to claim C3: after scheduling one reminder for user `"7"`
and that reminder firing, the snapshot still reports one scheduled reminder
(the table entry is never removed), while the number of users whose most
recent reminder has not yet fired is zero. -/
theorem claim_C3_counterexample :
    (getSchedulerStats 1 1 1
        (applyEvents initState
          [.record "7" ⟨0, 10, 30, 0, 0⟩, .fireComplete "7"])).scheduled_reminders = 1 ∧
    specScheduledCount [.record "7" ⟨0, 10, 30, 0, 0⟩, .fireComplete "7"] = 0 ∧
    (getSchedulerStats 1 1 1
        (applyEvents initState
          [.record "7" ⟨0, 10, 30, 0, 0⟩, .fireComplete "7"])).scheduled_reminders ≠
      specScheduledCount [.record "7" ⟨0, 10, 30, 0, 0⟩, .fireComplete "7"] := by
  refine ⟨rfl, rfl, ?_⟩
  decide

/-- Claim C3 as amended: a user's entry in the shared schedule table is never
removed — neither when that user's reminder fires nor when the scheduler
stops — so the snapshot's `scheduled_reminders` equals the size of the table,
which counts the users for whom a reminder was ever recorded: recording for
an already-present user overwrites without growing the table, recording for a
new user grows it by one. -/
theorem claim_C3_table_never_shrinks (s : SchedState) (uid : String)
    (t : DateTime) (totalUsers totalNotes activeUsers : Nat) :
    (applyEvent s (.fireComplete uid)).userReminderTimes = s.userReminderTimes ∧
    (applyEvent s .stop).userReminderTimes = s.userReminderTimes ∧
    (getSchedulerStats totalUsers totalNotes activeUsers s).scheduled_reminders =
      s.userReminderTimes.length ∧
    (s.userReminderTimes.any (fun p => p.1 == uid) = true →
      (applyEvent s (.record uid t)).userReminderTimes.length =
        s.userReminderTimes.length) ∧
    (s.userReminderTimes.any (fun p => p.1 == uid) = false →
      (applyEvent s (.record uid t)).userReminderTimes.length =
        s.userReminderTimes.length + 1) := by
  refine ⟨rfl, rfl, rfl, ?_, ?_⟩
  · intro h
    simp only [applyEvent, assocInsert, h, if_pos]
    simp
  · intro h
    simp only [applyEvent, assocInsert, h]
    simp

/-- Witness for C3 (amended): concrete firing and re-recording around a
one-entry table. -/
theorem claim_C3_witness :
    (applyEvent ⟨[("7", ⟨0, 10, 30, 0, 0⟩)], true⟩
        (.fireComplete "7")).userReminderTimes = [("7", ⟨0, 10, 30, 0, 0⟩)] ∧
    (applyEvent ⟨[("7", ⟨0, 10, 30, 0, 0⟩)], true⟩
        .stop).userReminderTimes = [("7", ⟨0, 10, 30, 0, 0⟩)] ∧
    (getSchedulerStats 1 1 1
        ⟨[("7", ⟨0, 10, 30, 0, 0⟩)], true⟩).scheduled_reminders = 1 ∧
    ([("7", ⟨0, 10, 30, 0, 0⟩)] : List (String × DateTime)).any
        (fun p => p.1 == "7") = true →
      (applyEvent ⟨[("7", ⟨0, 10, 30, 0, 0⟩)], true⟩
          (.record "7" ⟨1, 9, 0, 0, 0⟩)).userReminderTimes.length = 1 :=
  fun _ =>
    (claim_C3_table_never_shrinks ⟨[("7", ⟨0, 10, 30, 0, 0⟩)], true⟩ "7"
        ⟨1, 9, 0, 0, 0⟩ 1 1 1).2.2.2.1 (by decide)

/-- Counterexample to claim C5: on a reminder day (`day 2`, interval 2) with
an empty user list, the controller sleeps one hour (3600 s), not until the
next local midnight (43200 s away at noon). -/
theorem claim_C5_counterexample :
    isReminderDay 2 2 = true ∧
    (runSchedulerIteration 2 2 [] [] (fun _ => []) (fun _ => (8, 0))
        ⟨0, 12, 0, 0, 0⟩).sleepMicros = 3600 * 1000000 ∧
    microsUntilNextMidnight ⟨0, 12, 0, 0, 0⟩ = 43200 * 1000000 ∧
    (runSchedulerIteration 2 2 [] [] (fun _ => []) (fun _ => (8, 0))
        ⟨0, 12, 0, 0, 0⟩).sleepMicros ≠
      microsUntilNextMidnight ⟨0, 12, 0, 0, 0⟩ := by
  refine ⟨rfl, rfl, ?_, ?_⟩ <;> decide

/-- Claim C5 as amended: on a reminder day the controller runs the
reminder-day procedure and then sleeps with cancellation until the next local
midnight provided the eligible-user list is non-empty; on a reminder day with
no eligible users, and on every non-reminder day, it instead sleeps with
cancellation for exactly one hour before re-checking (a non-reminder day also
spawns no dispatcher). -/
theorem claim_C5_iteration_sleep (intervalDays dayOfMonth : Nat)
    (table : List (String × DateTime)) (userIds : List String)
    (notesOf : String → List Note) (randomDraw : String → Nat × Nat)
    (now : DateTime) :
    (isReminderDay dayOfMonth intervalDays = true → userIds ≠ [] →
      (runSchedulerIteration intervalDays dayOfMonth table userIds notesOf
          randomDraw now).sleepMicros = microsUntilNextMidnight now) ∧
    (isReminderDay dayOfMonth intervalDays = true → userIds = [] →
      (runSchedulerIteration intervalDays dayOfMonth table userIds notesOf
          randomDraw now).sleepMicros = 3600 * 1000000) ∧
    (isReminderDay dayOfMonth intervalDays = false →
      (runSchedulerIteration intervalDays dayOfMonth table userIds notesOf
          randomDraw now).sleepMicros = 3600 * 1000000 ∧
      (runSchedulerIteration intervalDays dayOfMonth table userIds notesOf
          randomDraw now).spawned = []) := by
  refine ⟨?_, ?_, ?_⟩
  · intro hday hne
    unfold runSchedulerIteration
    rw [if_pos hday]
    unfold handleReminderDay
    rw [if_neg (by simpa using hne)]
  · intro hday hempty
    unfold runSchedulerIteration
    rw [if_pos hday]
    unfold handleReminderDay
    rw [if_pos (by simpa using hempty)]
  · intro hday
    unfold runSchedulerIteration
    rw [if_neg (by simp [hday])]
    exact ⟨rfl, rfl⟩

/-- Witness for C5 (amended): at noon of a reminder day with one user the
iteration sleeps until the next midnight; with no users it sleeps one hour;
day 3 under interval 2 is not a reminder day and sleeps one hour. -/
theorem claim_C5_witness :
    (runSchedulerIteration 2 2 [] ["7"] (fun _ => [⟨"hello", "text", ""⟩])
        (fun _ => (14, 0)) ⟨0, 12, 0, 0, 0⟩).sleepMicros =
      microsUntilNextMidnight ⟨0, 12, 0, 0, 0⟩ ∧
    (runSchedulerIteration 2 2 [] [] (fun _ => [])
        (fun _ => (14, 0)) ⟨0, 12, 0, 0, 0⟩).sleepMicros = 3600 * 1000000 ∧
    (runSchedulerIteration 2 3 [] ["7"] (fun _ => [⟨"hello", "text", ""⟩])
        (fun _ => (14, 0)) ⟨0, 12, 0, 0, 0⟩).sleepMicros = 3600 * 1000000 :=
  ⟨(claim_C5_iteration_sleep 2 2 [] ["7"] (fun _ => [⟨"hello", "text", ""⟩])
      (fun _ => (14, 0)) ⟨0, 12, 0, 0, 0⟩).1 (by decide) (by decide),
   (claim_C5_iteration_sleep 2 2 [] [] (fun _ => [])
      (fun _ => (14, 0)) ⟨0, 12, 0, 0, 0⟩).2.1 (by decide) rfl,
   ((claim_C5_iteration_sleep 2 3 [] ["7"] (fun _ => [⟨"hello", "text", ""⟩])
      (fun _ => (14, 0)) ⟨0, 12, 0, 0, 0⟩).2.2 (by decide)).1⟩
